import Mathlib

/-!
Verification of the RAG core of `procurement-ai` (knowledge base, vector store,
retriever, embedding gateway) against its natural-language specification.

The Python modules `rag/embeddings.py`, `rag/vector_store.py`, `rag/retriever.py`
and `rag/knowledge_base.py` are shallowly embedded below.  Python dictionaries
become ordered association lists with first-key lookup and in-place-overwrite
update; the ChromaDB collection becomes an explicit list of stored documents;
the asynchronous embedding provider becomes an explicit function argument; a
Python exception becomes an `Except` error value.
-/

namespace ProcurementAI

/-- Metadata values stored in a document's metadata mapping: the source passes
strings, numbers and booleans (e.g. `{"success_rate": 0.95, "year": 2025}`).
Numbers are modelled as rationals. -/
inductive MetaValue where
  | str (s : String)
  | num (q : ℚ)
  | bool (b : Bool)
  deriving DecidableEq, Repr

/-- A Python dict used as document metadata: an ordered string-keyed mapping. -/
abbrev Metadata := List (String × MetaValue)

/-- `m.get(k)` / `k in m`: first binding of `k` in the ordered mapping. -/
def dictGet (m : Metadata) (k : String) : Option MetaValue :=
  (m.find? (fun p => p.1 == k)).map Prod.snd

/-- `m[k] = v` as performed by `dict.update`: overwrite the existing binding in
place (keeping its position) or append a new binding at the end. -/
def dictSet (m : Metadata) (k : String) (v : MetaValue) : Metadata :=
  if m.any (fun p => p.1 == k) then
    m.map (fun p => if p.1 == k then (k, v) else p)
  else
    m ++ [(k, v)]

/-- `meta.update({"category": category, "title": title})` as done by
`KnowledgeBase.add_example`, `add_examples_bulk` and `import_from_json`. -/
def mergeCatTitle (m : Metadata) (category title : String) : Metadata :=
  dictSet (dictSet m "category" (MetaValue.str category)) "title" (MetaValue.str title)

/-! ## Embedding gateway (`rag/embeddings.py`) -/

/-- `EmbeddingService.EMBEDDING_DIMENSION = 768`. -/
def EMBEDDING_DIMENSION : Nat := 768

/-- Error taxonomy at the embedding boundary: `invalidInput` is the
`ValueError("Text cannot be empty")` raised before any network call;
`retrievalUnavailable` is an `httpx` transport/HTTP failure. -/
inductive EmbedError where
  | invalidInput
  | retrievalUnavailable
  deriving DecidableEq, Repr

/-- Python `str.strip()` on the character list: drop whitespace from both
ends (structural, so the kernel can evaluate it on literals, which Lean's
`String.trim` cannot). -/
def stripChars (cs : List Char) : List Char :=
  ((cs.dropWhile Char.isWhitespace).reverse.dropWhile Char.isWhitespace).reverse

/-- Python `text.strip()`. -/
def pyStrip (s : String) : String := ⟨stripChars s.data⟩

/-- `not text or not text.strip()`: the emptiness check of
`EmbeddingService.create_embedding`. -/
def textBlank (text : String) : Bool :=
  text.isEmpty || (pyStrip text).isEmpty

/-- The external embedding provider (LM Studio behind `httpx`, outside `src/`):
given the request text it either fails (transport/provider error) or returns
the vector found at `data['data'][0]['embedding']`. -/
abbrev Provider := String → Except Unit (List ℚ)

/-- `EmbeddingService.create_embedding(text)`.  Returns the outcome together
with the number of provider (network) calls performed: blank text raises
`ValueError` before the `httpx` client is ever used. -/
def create_embedding (provider : Provider) (text : String) :
    Except EmbedError (List ℚ) × Nat :=
  if textBlank text then
    (Except.error EmbedError.invalidInput, 0)
  else
    match provider text with
    | Except.error _ => (Except.error EmbedError.retrievalUnavailable, 1)
    | Except.ok v => (Except.ok v, 1)

/-! ## Vector store (`rag/vector_store.py`) -/

/-- `Document` dataclass: content, metadata, optional id. -/
structure Document where
  content : String
  metadata : Metadata
  id : Option String := none
  deriving DecidableEq, Repr

/-- One entry of the ChromaDB collection: the triple added by
`collection.add(documents=[...], embeddings=[...], metadatas=[...], ids=[...])`. -/
structure StoredDoc where
  id : String
  content : String
  metadata : Metadata
  embedding : List ℚ
  deriving DecidableEq, Repr

/-- The ChromaDB collection's contents in insertion order; `collection.count()`
is its length. -/
abbrev StoreState := List StoredDoc

/-- `collection.count()`. -/
def count (st : StoreState) : Nat := st.length

/-- `f"doc_{self.collection.count() + 1}"`: the auto-generated id. -/
def genId (st : StoreState) : String := "doc_" ++ toString (st.length + 1)

/-- `document.id or f"doc_{...}"`: a missing id — and, `or` being a truthiness
test, also an empty-string id — is replaced by the generated one. -/
def chosenId (st : StoreState) (docId : Option String) : String :=
  match docId with
  | none => genId st
  | some s => if s.isEmpty then genId st else s

/-- `VectorStore.add_document`: pick the id, embed the content (failure
propagates, leaving the collection unchanged), then append to the collection. -/
def add_document (provider : Provider) (st : StoreState) (doc : Document) :
    Except EmbedError (StoreState × String) :=
  let docId := chosenId st doc.id
  match (create_embedding provider doc.content).1 with
  | Except.error e => Except.error e
  | Except.ok emb =>
      Except.ok (st ++ [⟨docId, doc.content, doc.metadata, emb⟩], docId)

/-- `VectorStore.add_documents`: a sequential loop over `add_document`; the
first failure propagates as the call's exception, keeping every document
inserted before it and never reaching the documents after it. -/
def add_documents (provider : Provider) (st : StoreState) (docs : List Document) :
    StoreState × Except EmbedError (List String) :=
  match docs with
  | [] => (st, Except.ok [])
  | d :: ds =>
      match add_document provider st d with
      | Except.error e => (st, Except.error e)
      | Except.ok (st', docId) =>
          match add_documents provider st' ds with
          | (st'', Except.error e) => (st'', Except.error e)
          | (st'', Except.ok ids) => (st'', Except.ok (docId :: ids))

/-! ## Retriever (`rag/retriever.py`) -/

/-- One row of the ChromaDB `collection.query` answer, as consumed by
`DocumentRetriever.retrieve`: the zipped `(id, content, metadata, distance)`.
The index itself (ChromaDB) lives outside `src/`; its answer is taken as an
explicit argument, constrained by `QueryContract` where a claim needs the
index's documented behaviour. -/
structure QueryRow where
  id : String
  content : String
  metadata : Metadata
  distance : ℚ
  deriving DecidableEq, Repr

/-- `RetrievalResult` dataclass. -/
structure RetrievalResult where
  content : String
  metadata : Metadata
  similarity : ℚ
  deriving DecidableEq, Repr

/-- Python `min(a, b)`: the smaller argument, the first on ties. -/
def pyMin (a b : ℚ) : ℚ := if a ≤ b then a else b

/-- Python `max(a, b)`: the larger argument, the first on ties. -/
def pyMax (a b : ℚ) : ℚ := if b ≤ a then a else b

/-- `similarity = max(0, min(1, 1 - (distance ** 2 / 2)))` of
`DocumentRetriever.retrieve`; the float arithmetic is modelled over ℚ. -/
def toSimilarity (d : ℚ) : ℚ :=
  pyMax 0 (pyMin 1 (1 - d ^ 2 / 2))

/-- The `RetrievalResult(content=..., metadata=..., similarity=...)` built from
one query row. -/
def toResult (r : QueryRow) : RetrievalResult :=
  ⟨r.content, r.metadata, toSimilarity r.distance⟩

/-- `DocumentRetriever.retrieve` after the vector-store search: the guard
`if not raw_results['ids'] or not raw_results['ids'][0]` is the `[]` case; the
loop appends a result per row whose similarity reaches `min_similarity`,
preserving the row order. -/
def retrieve (rows : List QueryRow) (minSim : ℚ) : List RetrievalResult :=
  match rows with
  | [] => []
  | r :: rest =>
      if minSim ≤ toSimilarity r.distance then
        toResult r :: retrieve rest minSim
      else
        retrieve rest minSim

/-- Modelled from the spec: the contract of the Vector Index `query`
(ChromaDB, not under `src/`) — at most the requested number of rows, in
ascending order of a nonnegative native distance. -/
def QueryContract (rows : List QueryRow) (nResults : Nat) : Prop :=
  rows.length ≤ nResults ∧
  rows.Pairwise (fun a b => a.distance ≤ b.distance) ∧
  ∀ r ∈ rows, 0 ≤ r.distance

/-- Python `str(v)` as used by f-string interpolation of a metadata value in
`format_for_prompt` headers.  Integral numbers print as integers; float repr
is approximated by the rational's `num/den` rendering (no formatting claim
depends on non-string values). -/
def pyStr : MetaValue → String
  | MetaValue.str s => s
  | MetaValue.num q => if q.den = 1 then toString q.num else toString q
  | MetaValue.bool b => if b then "True" else "False"

/-- The section built for result number `i` (1-based) by
`DocumentRetriever.format_for_prompt`. -/
def sectionFor (i : Nat) (r : RetrievalResult) (includeMetadata : Bool) : String :=
  if includeMetadata then
    let header := "### Example " ++ toString i
    let header :=
      match dictGet r.metadata "title" with
      | some v => header ++ ": " ++ pyStr v
      | none => header
    let header :=
      match dictGet r.metadata "category" with
      | some v => header ++ " [" ++ pyStr v ++ "]"
      | none => header
    header ++ "\n\n" ++ r.content
  else
    r.content

/-- `DocumentRetriever.format_for_prompt`: empty list formats to `""`;
otherwise the sections for `enumerate(results, 1)` joined by the fixed
separator. -/
def format_for_prompt (results : List RetrievalResult)
    (includeMetadata : Bool := true) : String :=
  if results.isEmpty then ""
  else
    String.intercalate "\n\n---\n\n"
      ((results.enumFrom 1).map (fun p => sectionFor p.1 p.2 includeMetadata))

/-- `DocumentRetriever.retrieve_and_format`: retrieve, then format. -/
def retrieve_and_format (rows : List QueryRow) (minSim : ℚ) : String :=
  format_for_prompt (retrieve rows minSim) true

/-! ## Knowledge base manager (`rag/knowledge_base.py`) -/

/-- `meta = metadata or {}; meta.update({"category": ..., "title": ...})` of
`KnowledgeBase.add_example`.  Returns the metadata attached to the document
together with what the caller's own mapping holds after the call (when one was
supplied): Python's `or` replaces a falsy — i.e. empty — dict by a fresh one,
so only a supplied non-empty mapping is mutated in place. -/
def add_example_meta (metadata : Option Metadata) (category title : String) :
    Metadata × Option Metadata :=
  match metadata with
  | none => (mergeCatTitle [] category title, none)
  | some m =>
      if m.isEmpty then (mergeCatTitle [] category title, some m)
      else (mergeCatTitle m category title, some (mergeCatTitle m category title))

/-- `KnowledgeBase.add_example`: merge category/title into the metadata and
delegate to `VectorStore.add_document`. -/
def add_example (provider : Provider) (st : StoreState)
    (content category title : String) (metadata : Option Metadata)
    (docId : Option String) : Except EmbedError (StoreState × String) :=
  add_document provider st
    ⟨content, (add_example_meta metadata category title).1, docId⟩

/-- One element of the `examples` argument of `KnowledgeBase.add_examples_bulk`:
a dict with keys `content`, `category`, `title` and optional `metadata`, `id`. -/
structure ExampleItem where
  content : String
  category : String
  title : String
  metadata : Option Metadata := none
  id : Option String := none
  deriving DecidableEq, Repr

/-- `meta = ex.get('metadata', {}); meta.update(...)` of `add_examples_bulk`:
here `dict.get` hands back the caller's mapping itself whenever the key is
present — even an empty one — so any supplied mapping is mutated in place. -/
def bulk_item_meta (ex : ExampleItem) : Metadata × Option Metadata :=
  match ex.metadata with
  | none => (mergeCatTitle [] ex.category ex.title, none)
  | some m =>
      (mergeCatTitle m ex.category ex.title,
       some (mergeCatTitle m ex.category ex.title))

/-- `KnowledgeBase.add_examples_bulk`: build every `Document` first, then hand
the list to `VectorStore.add_documents`. -/
def add_examples_bulk (provider : Provider) (st : StoreState)
    (examples : List ExampleItem) : StoreState × Except EmbedError (List String) :=
  add_documents provider st
    (examples.map (fun ex => ⟨ex.content, (bulk_item_meta ex).1, ex.id⟩))

/-- `get_statistics()['total_documents']`: `len(all_docs['ids'])`. -/
def total_documents (st : StoreState) : Nat := st.length

/-- `meta.get('category', 'unknown')` as tallied by `get_statistics`. -/
def categoryOf (m : Metadata) : MetaValue :=
  (dictGet m "category").getD (MetaValue.str "unknown")

/-- The title under the same default rule as `import_from_json`'s `'Untitled'`. -/
def titleOf (m : Metadata) : MetaValue :=
  (dictGet m "title").getD (MetaValue.str "Untitled")

/-- The (content, category, title) tuples of the stored documents, in store
order; the round-trip claim compares these as sets. -/
def docTuples (st : StoreState) : List (String × MetaValue × MetaValue) :=
  st.map (fun d => (d.content, categoryOf d.metadata, titleOf d.metadata))

/-- One object of the snapshot JSON file.  `export_to_json` writes exactly
`{id, content, metadata}`; `import_from_json` additionally reads optional
top-level `category` and `title` keys, so those are carried as options. -/
structure ExportItem where
  id : Option String := none
  content : String
  metadata : Option Metadata := none
  category : Option String := none
  title : Option String := none
  deriving DecidableEq, Repr

/-- `KnowledgeBase.export_to_json`: serialize every stored document's
`(id, content, metadata)`; no top-level `category`/`title` keys are written. -/
def export_to_json (st : StoreState) : List ExportItem :=
  st.map (fun d => ⟨some d.id, d.content, some d.metadata, none, none⟩)

/-- The `Document` built from one JSON item by `KnowledgeBase.import_from_json`:
`meta = item.get('metadata', {})` then
`meta.update({"category": item.get('category', 'unknown'),
"title": item.get('title', 'Untitled')})`. -/
def import_item (item : ExportItem) : Document :=
  ⟨item.content,
   mergeCatTitle (item.metadata.getD []) (item.category.getD "unknown")
     (item.title.getD "Untitled"),
   item.id⟩

/-- `KnowledgeBase.import_from_json`: build the documents, insert them with
`add_documents` (a failure propagates), and return `len(documents)`. -/
def import_from_json (provider : Provider) (st : StoreState)
    (data : List ExportItem) : StoreState × Except EmbedError Nat :=
  match add_documents provider st (data.map import_item) with
  | (st', Except.error e) => (st', Except.error e)
  | (st', Except.ok _) => (st', Except.ok data.length)

/-- `KnowledgeBase.get_context`: the category filter is applied inside the
index query (abstracted as `rows`); the rest is `retrieve_and_format`. -/
def get_context (rows : List QueryRow) (minSim : ℚ) : String :=
  retrieve_and_format rows minSim

/-! ## Concrete fixtures used by witnesses and counterexamples -/

/-- A conforming embedding provider: always succeeds and returns a
`EMBEDDING_DIMENSION`-long vector (the code never inspects the values). -/
def constProvider : Provider :=
  fun _ => Except.ok (List.replicate EMBEDDING_DIMENSION 0)

/-- Bulk item 1 of the 3-document bulk-insert scenario: valid content. -/
def exOne : ExampleItem := ⟨"AI threat detection system", "cybersecurity", "t1", none, none⟩

/-- Bulk item 2 of the scenario: empty content, so its embedding fails. -/
def exTwo : ExampleItem := ⟨"", "ai", "t2", none, none⟩

/-- Bulk item 3 of the scenario: valid content. -/
def exThree : ExampleItem := ⟨"Cloud migration proposal", "software", "t3", none, none⟩

/-- The collection after inserting a document with explicit id `doc_1` into a
fresh collection. -/
def kbAfterDoc1 : StoreState :=
  [⟨"doc_1", "first content", [], List.replicate EMBEDDING_DIMENSION 0⟩]

/-- The collection after inserting a document with explicit id `doc_2` into a
fresh collection. -/
def kbAfterExplicitDoc2 : StoreState :=
  [⟨"doc_2", "first content", [], List.replicate EMBEDDING_DIMENSION 0⟩]

/-- The stored form of a second, id-less document once the generated id
`doc_2` is assigned to it. -/
def secondDoc : StoredDoc :=
  ⟨"doc_2", "second content", [], List.replicate EMBEDDING_DIMENSION 0⟩

/-- A one-document knowledge base whose document carries a category and a
title in its metadata, as `add_example` stores them. -/
def kbOrig : StoreState :=
  [⟨"doc_1", "AI threat detection system",
    [("category", MetaValue.str "cybersecurity"), ("title", MetaValue.str "X")],
    List.replicate EMBEDDING_DIMENSION 0⟩]

/-! ## Helper lemmas -/

theorem find?_overwrite_self (k : String) (v : MetaValue) (m : Metadata)
    (h : m.any (fun p => p.1 == k) = true) :
    (m.map (fun p => if p.1 == k then (k, v) else p)).find? (fun p => p.1 == k) =
      some (k, v) := by
  induction m with
  | nil => simp at h
  | cons p t ih =>
      rw [List.map_cons]
      by_cases hp : p.1 = k
      · have hhead : (if p.1 == k then (k, v) else p) = (k, v) := by simp [hp]
        rw [hhead]
        exact List.find?_cons_of_pos _ (by simp)
      · have hhead : (if p.1 == k then (k, v) else p) = p := by simp [hp]
        rw [hhead, List.find?_cons_of_neg _ (by simp [hp])]
        apply ih
        simpa [hp] using h

theorem find?_overwrite_ne (k k' : String) (v : MetaValue) (m : Metadata)
    (hne : k' ≠ k) :
    (m.map (fun p => if p.1 == k then (k, v) else p)).find? (fun p => p.1 == k') =
      m.find? (fun p => p.1 == k') := by
  induction m with
  | nil => rfl
  | cons p t ih =>
      rw [List.map_cons]
      by_cases hp : p.1 = k
      · have hhead : (if p.1 == k then (k, v) else p) = (k, v) := by simp [hp]
        rw [hhead, List.find?_cons_of_neg _ (by simp [Ne.symm hne]),
          List.find?_cons_of_neg _ (by simp [hp, Ne.symm hne])]
        exact ih
      · have hhead : (if p.1 == k then (k, v) else p) = p := by simp [hp]
        rw [hhead]
        by_cases hq : p.1 = k'
        · rw [List.find?_cons_of_pos _ (by simp [hq]),
            List.find?_cons_of_pos _ (by simp [hq])]
        · rw [List.find?_cons_of_neg _ (by simp [hq]),
            List.find?_cons_of_neg _ (by simp [hq])]
          exact ih

theorem dictGet_dictSet_self (k : String) (v : MetaValue) (m : Metadata) :
    dictGet (dictSet m k v) k = some v := by
  unfold dictSet dictGet
  by_cases h : m.any (fun p => p.1 == k)
  · rw [if_pos h, find?_overwrite_self k v m h]
    rfl
  · have hnone : m.find? (fun p => p.1 == k) = none := by
      rw [List.find?_eq_none]
      intro x hx hk
      exact h (List.any_eq_true.mpr ⟨x, hx, hk⟩)
    rw [if_neg h, List.find?_append, hnone]
    simp [List.find?]

theorem dictGet_dictSet_other (k k' : String) (v : MetaValue) (m : Metadata)
    (hne : k' ≠ k) : dictGet (dictSet m k v) k' = dictGet m k' := by
  unfold dictSet dictGet
  by_cases h : m.any (fun p => p.1 == k)
  · rw [if_pos h, find?_overwrite_ne k k' v m hne]
  · have h2 : List.find? (fun p => p.1 == k') [(k, v)] = none := by
      rw [List.find?_cons_of_neg _ (by simp [Ne.symm hne])]
      rfl
    rw [if_neg h, List.find?_append, h2]
    cases hf : m.find? (fun p => p.1 == k') <;> simp [hf]

theorem mergeCatTitle_category (m : Metadata) (c t : String) :
    dictGet (mergeCatTitle m c t) "category" = some (MetaValue.str c) := by
  unfold mergeCatTitle
  rw [dictGet_dictSet_other _ _ _ _ (by decide)]
  exact dictGet_dictSet_self _ _ _

theorem mergeCatTitle_title (m : Metadata) (c t : String) :
    dictGet (mergeCatTitle m c t) "title" = some (MetaValue.str t) :=
  dictGet_dictSet_self _ _ _

theorem mergeCatTitle_other (m : Metadata) (c t : String) (key : String)
    (hc : key ≠ "category") (ht : key ≠ "title") :
    dictGet (mergeCatTitle m c t) key = dictGet m key := by
  unfold mergeCatTitle
  rw [dictGet_dictSet_other _ _ _ _ ht, dictGet_dictSet_other _ _ _ _ hc]

theorem add_example_meta_fst (md : Option Metadata) (c t : String) :
    (add_example_meta md c t).1 = mergeCatTitle (md.getD []) c t := by
  cases md with
  | none => rfl
  | some m =>
      by_cases hm : m.isEmpty
      · rw [List.isEmpty_iff] at hm
        simp [add_example_meta, hm]
      · simp [add_example_meta, hm]

theorem toSimilarity_nonneg (d : ℚ) : 0 ≤ toSimilarity d := by
  unfold toSimilarity pyMax pyMin
  split_ifs <;> linarith

theorem toSimilarity_le_one (d : ℚ) : toSimilarity d ≤ 1 := by
  unfold toSimilarity pyMax pyMin
  split_ifs <;> linarith

theorem toSimilarity_antitone (d₁ d₂ : ℚ) (h0 : 0 ≤ d₁) (h12 : d₁ ≤ d₂) :
    toSimilarity d₂ ≤ toSimilarity d₁ := by
  have hsq : d₁ ^ 2 ≤ d₂ ^ 2 := by nlinarith
  unfold toSimilarity pyMax pyMin
  split_ifs <;> linarith

theorem retrieve_eq_filter_map (rows : List QueryRow) (s : ℚ) :
    retrieve rows s =
      (rows.map toResult).filter (fun r => decide (s ≤ r.similarity)) := by
  induction rows with
  | nil => rfl
  | cons r rest ih =>
      by_cases hr : s ≤ toSimilarity r.distance
      · simp [retrieve, hr, ih, List.filter, toResult]
      · simp [retrieve, hr, ih, List.filter, toResult]

/-! ## Claim theorems -/

section ClaimTheorems

attribute [local semireducible] Rat.add Rat.sub Rat.mul Rat.inv

/-- C3: every `RetrievalResult` returned by `retrieve` carries a similarity
computed as clamp(1 − d²/2, 0, 1) from its row's native distance `d`, hence
lying in [0, 1]; and the conversion is monotonically non-increasing in the
distance (over the nonnegative distances the index delivers). -/
theorem similarity_clamped_antitone (rows : List QueryRow) (s : ℚ) :
    (∀ r ∈ retrieve rows s, 0 ≤ r.similarity ∧ r.similarity ≤ 1 ∧
      ∃ row ∈ rows, r = toResult row) ∧
    (∀ d₁ d₂ : ℚ, 0 ≤ d₁ → d₁ ≤ d₂ → toSimilarity d₂ ≤ toSimilarity d₁) ∧
    ∀ d : ℚ, toSimilarity d = pyMax 0 (pyMin 1 (1 - d ^ 2 / 2)) := by
  refine ⟨?_, fun d₁ d₂ h0 h12 => toSimilarity_antitone d₁ d₂ h0 h12, fun d => rfl⟩
  intro r hr
  rw [retrieve_eq_filter_map] at hr
  rcases List.mem_map.mp (List.mem_of_mem_filter hr) with ⟨row, hrow, hEq⟩
  exact hEq ▸ ⟨toSimilarity_nonneg row.distance, toSimilarity_le_one row.distance,
    row, hrow, rfl⟩

/-- Witness for C3: a returned result with similarity 1 ∈ [0,1], antitonicity
at distances 1 ≤ 2, and the clamp formula at distance 5. -/
theorem similarity_clamped_antitone_witness :
    (0 ≤ (RetrievalResult.mk "c" [] 1).similarity ∧
      (RetrievalResult.mk "c" [] 1).similarity ≤ 1 ∧
      ∃ row ∈ [QueryRow.mk "doc_1" "c" [] 0], RetrievalResult.mk "c" [] 1 = toResult row) ∧
    toSimilarity 2 ≤ toSimilarity 1 ∧
    toSimilarity 5 = pyMax 0 (pyMin 1 (1 - 5 ^ 2 / 2)) :=
  ⟨(similarity_clamped_antitone [QueryRow.mk "doc_1" "c" [] 0] 0).1
      (RetrievalResult.mk "c" [] 1) (by decide),
   (similarity_clamped_antitone [] 0).2.1 1 2 (by decide) (by decide),
   (similarity_clamped_antitone [] 0).2.2 5⟩

/-- C4: `retrieve` with threshold `s` never returns a result whose similarity
is strictly below `s`, and raising the threshold to `s' ≥ s` never increases
the number of results (same rows, same query). -/
theorem min_similarity_threshold (rows : List QueryRow) (s s' : ℚ)
    (hss' : s ≤ s') :
    (∀ r ∈ retrieve rows s, s ≤ r.similarity) ∧
    (retrieve rows s').length ≤ (retrieve rows s).length := by
  constructor
  · intro r hr
    rw [retrieve_eq_filter_map] at hr
    exact of_decide_eq_true ((List.mem_filter.mp hr).2)
  · rw [retrieve_eq_filter_map, retrieve_eq_filter_map]
    exact (List.monotone_filter_right _
      (fun r hd => decide_eq_true (le_trans hss' (of_decide_eq_true hd)))).length_le

/-- Witness for C4 with thresholds 0 ≤ 1/2 over a one-row answer. -/
theorem min_similarity_threshold_witness :
    (∀ r ∈ retrieve [QueryRow.mk "doc_1" "c" [] 0] 0, (0 : ℚ) ≤ r.similarity) ∧
    (retrieve [QueryRow.mk "doc_1" "c" [] 0] (1/2)).length ≤
      (retrieve [QueryRow.mk "doc_1" "c" [] 0] 0).length :=
  min_similarity_threshold [QueryRow.mk "doc_1" "c" [] 0] 0 (1/2) (by decide)

/-- C7: on an empty answer (empty collection) or when every row is dropped by
the threshold, `retrieve` returns `[]` (not an error) and the formatted
context is the empty string; an empty result list always formats to `""`. -/
theorem empty_results_empty_context (rows : List QueryRow) (s : ℚ) (b : Bool)
    (hall : ∀ r ∈ rows, toSimilarity r.distance < s) :
    retrieve rows s = [] ∧ get_context rows s = "" ∧
    format_for_prompt [] b = "" ∧ retrieve [] s = [] ∧
    get_context ([] : List QueryRow) s = "" := by
  have hret : retrieve rows s = [] := by
    induction rows with
    | nil => rfl
    | cons r rest ih =>
        have hr := hall r (List.mem_cons_self r rest)
        simp only [retrieve, if_neg (not_le.mpr hr)]
        exact ih (fun x hx => hall x (List.mem_cons_of_mem r hx))
  refine ⟨hret, ?_, rfl, rfl, rfl⟩
  unfold get_context retrieve_and_format
  rw [hret]
  rfl

/-- Witness for C7: one row at distance 2 (similarity 0) against threshold
1/2 — the spec's "empty context" scenario. -/
theorem empty_results_empty_context_witness :
    retrieve [QueryRow.mk "doc_1" "c" [] 2] (1/2) = [] ∧
    get_context [QueryRow.mk "doc_1" "c" [] 2] (1/2) = "" ∧
    format_for_prompt [] true = "" ∧ retrieve [] (1/2 : ℚ) = [] ∧
    get_context ([] : List QueryRow) (1/2) = "" :=
  empty_results_empty_context [QueryRow.mk "doc_1" "c" [] 2] (1/2) true
    (by intro r hr; rw [List.mem_singleton] at hr; subst hr; decide)

/-- C6: under the index's query contract (≤ k rows, ascending nonnegative
distances), `retrieve` returns at most k results, in descending-similarity
order, and as a sublist of the converted rows — ties keep the original
ascending-distance order (stability). -/
theorem retrieve_ranked_bounded_stable (rows : List QueryRow) (k : Nat) (s : ℚ)
    (hq : QueryContract rows k) :
    (retrieve rows s).length ≤ k ∧
    (retrieve rows s).Pairwise (fun a b => b.similarity ≤ a.similarity) ∧
    (retrieve rows s).Sublist (rows.map toResult) := by
  obtain ⟨hlen, hsorted, hnn⟩ := hq
  have hmap : (rows.map toResult).Pairwise
      (fun a b => b.similarity ≤ a.similarity) := by
    rw [List.pairwise_map]
    refine hsorted.imp_of_mem ?_
    intro a b ha hb hab
    exact toSimilarity_antitone a.distance b.distance (hnn a ha) hab
  rw [retrieve_eq_filter_map]
  refine ⟨?_, hmap.sublist (List.filter_sublist _), List.filter_sublist _⟩
  calc (List.filter _ (rows.map toResult)).length
      ≤ (rows.map toResult).length := List.length_filter_le _ _
    _ = rows.length := List.length_map _ _
    _ ≤ k := hlen

/-- Witness for C6: two rows at distances 0 and 1, k = 3, threshold 0. -/
theorem retrieve_ranked_bounded_stable_witness :
    (retrieve [QueryRow.mk "a" "c1" [] 0, QueryRow.mk "b" "c2" [] 1] 0).length ≤ 3 ∧
    (retrieve [QueryRow.mk "a" "c1" [] 0, QueryRow.mk "b" "c2" [] 1] 0).Pairwise
      (fun a b => b.similarity ≤ a.similarity) ∧
    (retrieve [QueryRow.mk "a" "c1" [] 0, QueryRow.mk "b" "c2" [] 1] 0).Sublist
      ([QueryRow.mk "a" "c1" [] 0, QueryRow.mk "b" "c2" [] 1].map toResult) :=
  retrieve_ranked_bounded_stable [QueryRow.mk "a" "c1" [] 0, QueryRow.mk "b" "c2" [] 1]
    3 0
    ⟨by decide,
     List.Pairwise.cons (fun b hb => by rw [List.mem_singleton] at hb; subst hb; decide)
       (List.pairwise_singleton _ _),
     by decide⟩

/-- C5: `create_embedding` on empty or whitespace-only text fails with the
invalid-input error before any provider call; whenever it succeeds — the
provider honouring its fixed-dimension contract — the returned vector has
exactly `EMBEDDING_DIMENSION` (768) elements. -/
theorem embed_blank_invalid_and_dimension (provider : Provider)
    (hdim : ∀ t v, provider t = Except.ok v → v.length = EMBEDDING_DIMENSION) :
    (∀ text : String, textBlank text = true →
      create_embedding provider text = (Except.error EmbedError.invalidInput, 0)) ∧
    ∀ text v n, create_embedding provider text = (Except.ok v, n) →
      textBlank text = false ∧ v.length = EMBEDDING_DIMENSION := by
  constructor
  · intro text h
    simp [create_embedding, h]
  · intro text v n h
    by_cases hb : textBlank text
    · simp [create_embedding, hb] at h
    · refine ⟨by simpa using hb, ?_⟩
      cases hp : provider text with
      | error e =>
          simp [create_embedding, hb, hp] at h
      | ok u =>
          simp only [create_embedding, hb, Bool.false_eq_true, if_false, hp,
            Prod.mk.injEq] at h
          rcases h with ⟨h1, h2⟩
          injection h1 with h1
          subst h1
          exact hdim text u hp

/-- Witness for C5: the whitespace-only input `"   "` fails with no provider
call, and a successful call returns a 768-element vector. -/
theorem embed_blank_invalid_and_dimension_witness :
    create_embedding constProvider "   " = (Except.error EmbedError.invalidInput, 0) ∧
    (List.replicate EMBEDDING_DIMENSION (0 : ℚ)).length = EMBEDDING_DIMENSION := by
  have hdim : ∀ t v, constProvider t = Except.ok v → v.length = EMBEDDING_DIMENSION := by
    intro t v h
    cases h
    exact List.length_replicate _ _
  exact ⟨(embed_blank_invalid_and_dimension constProvider hdim).1 "   " (by decide),
    ((embed_blank_invalid_and_dimension constProvider hdim).2 "hello"
      (List.replicate EMBEDDING_DIMENSION 0) 1 rfl).2⟩

/-- C8: the metadata stored by `add_example` maps `"category"` to the category
argument and `"title"` to the title argument — overwriting caller-supplied
values under those keys — and agrees with the caller's metadata on every
other key. -/
theorem add_example_metadata_merge (provider : Provider) (st : StoreState)
    (content category title : String) (metadata : Option Metadata)
    (docId : Option String) (st' : StoreState) (newId : String)
    (hok : add_example provider st content category title metadata docId =
      Except.ok (st', newId)) :
    ∃ d : StoredDoc, st' = st ++ [d] ∧
      dictGet d.metadata "category" = some (MetaValue.str category) ∧
      dictGet d.metadata "title" = some (MetaValue.str title) ∧
      ∀ key : String, key ≠ "category" → key ≠ "title" →
        dictGet d.metadata key = dictGet (metadata.getD []) key := by
  unfold add_example add_document at hok
  rcases hemb : (create_embedding provider content).1 with e | emb
  · rw [hemb] at hok
    cases hok
  · rw [hemb] at hok
    injection hok with hok'
    injection hok' with hst hid
    refine ⟨⟨chosenId st docId, content,
        (add_example_meta metadata category title).1, emb⟩, hst.symm, ?_, ?_, ?_⟩
    · rw [add_example_meta_fst]
      exact mergeCatTitle_category _ _ _
    · rw [add_example_meta_fst]
      exact mergeCatTitle_title _ _ _
    · intro key hc ht
      rw [add_example_meta_fst]
      exact mergeCatTitle_other _ _ _ _ hc ht

/-- Witness for C8: caller metadata `{"year": 2025}` with category `cat` and
title `ttl` into a fresh collection. -/
theorem add_example_metadata_merge_witness :
    ∃ d : StoredDoc,
      [(⟨"doc_1", "c",
          [("year", MetaValue.num 2025), ("category", MetaValue.str "cat"),
            ("title", MetaValue.str "ttl")],
          List.replicate EMBEDDING_DIMENSION 0⟩ : StoredDoc)] = [] ++ [d] ∧
      dictGet d.metadata "category" = some (MetaValue.str "cat") ∧
      dictGet d.metadata "title" = some (MetaValue.str "ttl") ∧
      ∀ key : String, key ≠ "category" → key ≠ "title" →
        dictGet d.metadata key =
          dictGet ((some [("year", MetaValue.num 2025)] : Option Metadata).getD []) key :=
  add_example_metadata_merge constProvider [] "c" "cat" "ttl"
    (some [("year", MetaValue.num 2025)]) none _ "doc_1" rfl

/-- C1 (code bug): exporting `kbOrig` and importing the file into a fresh
collection preserves `total_documents` but replaces the document's
category/title with `"unknown"`/`"Untitled"`: `import_from_json` reads
top-level `category`/`title` keys that `export_to_json` never writes, so its
defaults overwrite the metadata that was exported — the set of
(content, category, title) tuples is not preserved. -/
theorem export_import_roundTrip_loses_category_title :
    total_documents (import_from_json constProvider [] (export_to_json kbOrig)).1 =
      total_documents kbOrig ∧
    (import_from_json constProvider [] (export_to_json kbOrig)).2 = Except.ok 1 ∧
    docTuples (import_from_json constProvider [] (export_to_json kbOrig)).1 =
      [("AI threat detection system", MetaValue.str "unknown", MetaValue.str "Untitled")] ∧
    docTuples kbOrig =
      [("AI threat detection system", MetaValue.str "cybersecurity", MetaValue.str "X")] ∧
    docTuples (import_from_json constProvider [] (export_to_json kbOrig)).1 ≠
      docTuples kbOrig :=
  ⟨by decide, rfl, by decide, by decide, by decide⟩

/-- C2 counterexample: the bulk insert of `[exOne, exTwo, exThree]` (item 2
has empty content) into a fresh collection leaves ONE document, not two:
document 3 is never inserted, although item 2's failure is indeed reported as
the call's error. -/
theorem bulk_insert_counterexample :
    (add_examples_bulk constProvider [] [exOne, exTwo, exThree]).1.length = 1 ∧
    (add_examples_bulk constProvider [] [exOne, exTwo, exThree]).2 =
      Except.error EmbedError.invalidInput ∧
    (add_examples_bulk constProvider [] [exOne, exTwo, exThree]).1.length ≠ 2 :=
  ⟨by decide, rfl, by decide⟩

/-- C2 amended: for a bulk insert of 3 documents where item 2 has empty
content (items 1 and 3 valid, provider available), document 1 persists
(count() == 1) and item 2's failure is reported to the caller as the call's
error; document 3 is never inserted — the loop fails fast without rolling
back document 1. -/
theorem bulk_insert_failFast (provider : Provider) (e1 e2 e3 : ExampleItem)
    (hp : ∀ t, ∃ v, provider t = Except.ok v)
    (h1 : textBlank e1.content = false)
    (h2 : textBlank e2.content = true) :
    ∃ d : StoredDoc,
      (add_examples_bulk provider [] [e1, e2, e3]).1 = [d] ∧
      d.content = e1.content ∧
      (add_examples_bulk provider [] [e1, e2, e3]).2 =
        Except.error EmbedError.invalidInput := by
  obtain ⟨v, hv⟩ := hp e1.content
  refine ⟨⟨chosenId [] e1.id, e1.content, (bulk_item_meta e1).1, v⟩, ?_, rfl, ?_⟩
  all_goals
    simp [add_examples_bulk, add_documents, add_document, create_embedding,
      h1, h2, hv, chosenId]

/-- Witness for C2 amended, at the concrete 3-document scenario. -/
theorem bulk_insert_failFast_witness :
    ∃ d : StoredDoc,
      (add_examples_bulk constProvider [] [exOne, exTwo, exThree]).1 = [d] ∧
      d.content = exOne.content ∧
      (add_examples_bulk constProvider [] [exOne, exTwo, exThree]).2 =
        Except.error EmbedError.invalidInput :=
  bulk_insert_failFast constProvider exOne exTwo exThree
    (fun _ => ⟨List.replicate EMBEDDING_DIMENSION 0, rfl⟩) (by decide) (by decide)

/-- C9 counterexample: under the claim's own example sequence — a document
with explicit id `doc_1` into an empty collection, then a document without an
id — the generated id is `doc_2`, which does NOT equal the id of any stored
document, and the ids remain unique. -/
theorem autoId_example_no_collision :
    add_document constProvider [] ⟨"first content", [], some "doc_1"⟩ =
      Except.ok (kbAfterDoc1, "doc_1") ∧
    genId kbAfterDoc1 = "doc_2" ∧
    add_document constProvider kbAfterDoc1 ⟨"second content", [], none⟩ =
      Except.ok (kbAfterDoc1 ++ [secondDoc], "doc_2") ∧
    (kbAfterDoc1 ++ [secondDoc]).map StoredDoc.id = ["doc_1", "doc_2"] ∧
    (["doc_1", "doc_2"] : List String).Nodup :=
  ⟨rfl, rfl, rfl, by decide, by decide⟩

/-- C9 amended: auto-assigned ids indeed do not guarantee uniqueness, but the
collision needs a sequence such as: insert a document with explicit id
`doc_2` into an empty collection, then insert a document without an id — the
generated id `doc_` + (count + 1) is `doc_2` again, so the uniqueness
invariant is violated. -/
theorem autoId_collision_doc2 :
    add_document constProvider [] ⟨"first content", [], some "doc_2"⟩ =
      Except.ok (kbAfterExplicitDoc2, "doc_2") ∧
    genId kbAfterExplicitDoc2 = "doc_2" ∧
    add_document constProvider kbAfterExplicitDoc2 ⟨"second content", [], none⟩ =
      Except.ok (kbAfterExplicitDoc2 ++ [secondDoc], "doc_2") ∧
    ¬ ((kbAfterExplicitDoc2 ++ [secondDoc]).map StoredDoc.id).Nodup :=
  ⟨rfl, rfl, rfl, by decide⟩

/-- C10 counterexample: `add_example` called with a non-null but EMPTY
metadata mapping does not mutate it — Python's `metadata or {}` replaces the
falsy empty dict by a fresh one — so after the call the caller's mapping
still lacks the `category` and `title` entries. -/
theorem metadata_empty_dict_not_mutated :
    (add_example_meta (some []) "cat" "ttl").2 = some [] ∧
    dictGet ([] : Metadata) "category" = none ∧
    dictGet ([] : Metadata) "title" = none :=
  ⟨rfl, rfl, rfl⟩

/-- C10 amended: `add_example` mutates the caller's metadata mapping in place
exactly when it is non-empty, and `add_examples_bulk` mutates any supplied
mapping (even an empty one): after the call the caller's mapping is the
merged mapping, holding the `category` and `title` entries. -/
theorem metadata_mutation_amended (m : Metadata) (c t : String) (hm : m ≠ [])
    (ex : ExampleItem) (m2 : Metadata) (hex : ex.metadata = some m2) :
    (add_example_meta (some m) c t).2 = some (mergeCatTitle m c t) ∧
    dictGet (mergeCatTitle m c t) "category" = some (MetaValue.str c) ∧
    dictGet (mergeCatTitle m c t) "title" = some (MetaValue.str t) ∧
    (bulk_item_meta ex).2 = some (mergeCatTitle m2 ex.category ex.title) ∧
    dictGet (mergeCatTitle m2 ex.category ex.title) "category" =
      some (MetaValue.str ex.category) ∧
    dictGet (mergeCatTitle m2 ex.category ex.title) "title" =
      some (MetaValue.str ex.title) := by
  refine ⟨?_, mergeCatTitle_category _ _ _, mergeCatTitle_title _ _ _, ?_,
    mergeCatTitle_category _ _ _, mergeCatTitle_title _ _ _⟩
  · have hne : m.isEmpty = false := by
      cases m with
      | nil => exact absurd rfl hm
      | cons a l => rfl
    simp [add_example_meta, hne]
  · simp [bulk_item_meta, hex]

/-- Witness for C10 amended: non-empty caller metadata `{"year": 2025}` for
`add_example`, and an empty supplied metadata for `add_examples_bulk`. -/
theorem metadata_mutation_amended_witness :
    (add_example_meta (some [("year", MetaValue.num 2025)]) "cat" "ttl").2 =
      some (mergeCatTitle [("year", MetaValue.num 2025)] "cat" "ttl") ∧
    dictGet (mergeCatTitle [("year", MetaValue.num 2025)] "cat" "ttl") "category" =
      some (MetaValue.str "cat") ∧
    dictGet (mergeCatTitle [("year", MetaValue.num 2025)] "cat" "ttl") "title" =
      some (MetaValue.str "ttl") ∧
    (bulk_item_meta (ExampleItem.mk "c" "bc" "bt" (some []) none)).2 =
      some (mergeCatTitle [] "bc" "bt") ∧
    dictGet (mergeCatTitle [] "bc" "bt") "category" = some (MetaValue.str "bc") ∧
    dictGet (mergeCatTitle [] "bc" "bt") "title" = some (MetaValue.str "bt") :=
  metadata_mutation_amended [("year", MetaValue.num 2025)] "cat" "ttl" (by decide)
    (ExampleItem.mk "c" "bc" "bt" (some []) none) [] rfl

end ClaimTheorems

end ProcurementAI
